import Mathlib

/-!
Verification of the survey-form component of the rate-my-school repository.

The embedding covers the two source files:

* `src/components/Form.vue` — the zod `schema`, the reactive `state` draft,
  the `errors` map, and `onSubmit`;
* `src/utils/data-clean.ts` — `schoolNames` and the shape of a school record.

Modelling conventions:

* The draft state is typed `ref<Schema>` in the source, where
  `Schema = z.infer<typeof schema>`; `Draft` below mirrors that inferred
  type field by field (`Option` for the optional fields, `Bool` for the
  boolean, and `ℚ` for the rating numbers — the behaviours at stake,
  comparison with the literals 1 and 5 and integrality, are exact both for
  JavaScript doubles and for rationals on the inputs in question).
* zod's `parse` collects one issue list over the whole object, visiting
  schema keys in declaration order and not short-circuiting across fields;
  `validate` below produces that issue list.  With this particular schema a
  key contributes issues as follows: `.nonempty(msg)` yields `msg` exactly
  when the string has length 0, `.number().min(1).max(5).optional()` yields
  the zod range message for a present number below 1 or above 5, and every
  other key of this schema never yields an issue on a value of its
  TypeScript type.
* The `catch` in `onSubmit` rebuilds `errors.value` with
  `error.errors.reduce((acc, curr) => { acc[curr.path[0]] = curr.message; return acc }, {})`;
  `buildErrorMap` is that fold, later entries for the same key overwriting
  earlier ones.  On the success path `errors.value` is not touched.
* The uuid generator is an external collaborator; `submit` takes the token
  it returns as an argument, and `submitFallible` additionally models the
  generator throwing: the `catch (error)` block only acts when
  `error instanceof z.ZodError`, so any other exception is caught and
  ignored and `onSubmit` returns normally with state and errors unchanged.
-/

set_option autoImplicit false

namespace RateMySchool

/-- The keys of the zod `schema` in `Form.vue` (declaration order of the
object literal, lines 8–27). -/
inductive SchemaField where
  | uniqueId
  | schoolName
  | sex
  | nationality
  | currentStudent
  | yearOfStudy
  | nameOfStudy
  | qualityOfTeaching
  | safety
  | location
  | socialEvents
  | facilities
  | courseContent
  | housingAndAccommodation
  | internationalFocus
  | mentalHealthAndWellnessServices
  | careerServicesAndInternshipOpportunities
  | additionalComments
  deriving DecidableEq, Repr

/-- The `sex` enum of the schema: `z.enum(["male", "female", "prefer not to say", ""])`.
The empty-string member is `unset`. -/
inductive Sex where
  | male
  | female
  | preferNotToSay
  | unset
  deriving DecidableEq, Repr

/-- The draft state of the form: the TypeScript type `z.infer<typeof schema>`
backing `state` in `Form.vue` (lines 31–50).  Optional schema keys are
`Option`; the ten rating fields are numbers. -/
structure Draft where
  uniqueId : Option String
  schoolName : String
  sex : Option Sex
  nationality : String
  currentStudent : Bool
  yearOfStudy : Option String
  nameOfStudy : Option String
  qualityOfTeaching : Option ℚ
  safety : Option ℚ
  location : Option ℚ
  socialEvents : Option ℚ
  facilities : Option ℚ
  courseContent : Option ℚ
  housingAndAccommodation : Option ℚ
  internationalFocus : Option ℚ
  mentalHealthAndWellnessServices : Option ℚ
  careerServicesAndInternshipOpportunities : Option ℚ
  additionalComments : Option String
  deriving DecidableEq, Repr

/-- Issues contributed by a `z.string().nonempty(msg)` key: the custom
message exactly when the string has length 0. -/
def nonemptyIssues (f : SchemaField) (msg : String) (s : String) :
    List (SchemaField × String) :=
  if s.length = 0 then [(f, msg)] else []

/-- Issues contributed by a `z.number().min(1).max(5).optional()` key: for a
present value, the zod `min` message when it is below 1 and the zod `max`
message when it is above 5 (both checks run; `min` is declared first). -/
def ratingIssues (f : SchemaField) (v : Option ℚ) :
    List (SchemaField × String) :=
  match v with
  | none => []
  | some q =>
    (if q < 1 then [(f, "Number must be greater than or equal to 1")] else []) ++
    (if q > 5 then [(f, "Number must be less than or equal to 5")] else [])

/-- The issue list produced by `schema.parse(state.value)` on a draft of the
inferred TypeScript type: zod checks every key (no short-circuit across
fields), in schema declaration order.  The keys `uniqueId`, `sex`,
`currentStudent`, `yearOfStudy`, `nameOfStudy` and `additionalComments`
never produce an issue on a value of the inferred type, so they contribute
nothing. -/
def validate (d : Draft) : List (SchemaField × String) :=
  nonemptyIssues .schoolName "School name is required" d.schoolName ++
  nonemptyIssues .nationality "Nationality is required" d.nationality ++
  ratingIssues .qualityOfTeaching d.qualityOfTeaching ++
  ratingIssues .safety d.safety ++
  ratingIssues .location d.location ++
  ratingIssues .socialEvents d.socialEvents ++
  ratingIssues .facilities d.facilities ++
  ratingIssues .courseContent d.courseContent ++
  ratingIssues .housingAndAccommodation d.housingAndAccommodation ++
  ratingIssues .internationalFocus d.internationalFocus ++
  ratingIssues .mentalHealthAndWellnessServices d.mentalHealthAndWellnessServices ++
  ratingIssues .careerServicesAndInternshipOpportunities
    d.careerServicesAndInternshipOpportunities

/-- The `errors` ref: `Partial<Record<keyof Schema, string>>`; absent key is
`none`. -/
def ErrorMap : Type := SchemaField → Option String

/-- The initial `errors.value = {}`. -/
def emptyErrorMap : ErrorMap := fun _ => none

/-- The `reduce` in the `catch` branch of `onSubmit` (lines 71–75):
`acc[curr.path[0]] = curr.message` on a JavaScript object assigns, so a
later issue for the same key overwrites an earlier one. -/
def buildErrorMap (issues : List (SchemaField × String)) : ErrorMap :=
  issues.foldl (fun acc i => Function.update acc i.1 (some i.2)) emptyErrorMap

/-- The observable outcome of one `onSubmit` call: the draft state and error
map after the call, and the payload of the `formSubmitted` event when one
was emitted. -/
structure SubmitResult where
  draft : Draft
  errors : ErrorMap
  emitted : Option Draft

/-- `onSubmit` (Form.vue lines 58–81) with the uuid token passed in: assign
the fresh token into `state.value.uniqueId`, run `schema.parse`; on success
emit the validated record (for this schema, `parse` returns the input object
with the same field values) and leave `errors.value` untouched; on a
`ZodError`, rebuild `errors.value` from the issue list and emit nothing. -/
def submit (prev : ErrorMap) (d : Draft) (token : String) : SubmitResult :=
  let d2 : Draft := { d with uniqueId := some token }
  let issues := validate d2
  if issues.isEmpty then
    { draft := d2, errors := prev, emitted := some d2 }
  else
    { draft := d2, errors := buildErrorMap issues, emitted := none }

/-- Outcome of the call `uuidv4()` inside the `try` block: a token, or a
thrown exception. -/
inductive GenOutcome where
  | ok (token : String)
  | fault
  deriving DecidableEq, Repr

/-- `onSubmit` with a possibly-throwing uuid generator.  When `uuidv4()`
throws, the exception is raised before `state.value.uniqueId` is assigned;
the `catch (error)` block catches it, the `error instanceof z.ZodError` test
fails, nothing else runs, and `onSubmit` returns normally: state and error
map unchanged, no event, no propagation of the fault to the caller. -/
def submitFallible (prev : ErrorMap) (d : Draft) (g : GenOutcome) : SubmitResult :=
  match g with
  | .ok token => submit prev d token
  | .fault => { draft := d, errors := prev, emitted := none }

/-- A raw record of `~/data/schools.json`, restricted to the fields
`data-clean.ts` reads.  The dataset itself is an external collaborator, so
the functions below take the record list as an argument. -/
structure School where
  INSTELLINGSNAAM : String
  SOORT_HO : String
  PROVINCIE : String
  STRAATNAAM : String
  HUISNUMMER_TOEVOEGING : String
  POSTCODE : String
  PLAATSNAAM : String
  INTERNETADRES : String
  BEVOEGD_GEZAG_NUMMER : String
  deriving DecidableEq, Repr

/-- `schoolNames` of `data-clean.ts` (lines 18–22):
`schools.map((school) => school.INSTELLINGSNAAM)`. -/
def schoolNames (schools : List School) : List String :=
  schools.map (fun s => s.INSTELLINGSNAAM)

/-- `setRating` (Form.vue lines 83–85) restricted to the ten rating fields:
overwrites the field unconditionally, touching nothing else. -/
def setRating (d : Draft) (f : SchemaField) (value : ℚ) : Draft :=
  match f with
  | .qualityOfTeaching => { d with qualityOfTeaching := some value }
  | .safety => { d with safety := some value }
  | .location => { d with location := some value }
  | .socialEvents => { d with socialEvents := some value }
  | .facilities => { d with facilities := some value }
  | .courseContent => { d with courseContent := some value }
  | .housingAndAccommodation => { d with housingAndAccommodation := some value }
  | .internationalFocus => { d with internationalFocus := some value }
  | .mentalHealthAndWellnessServices =>
      { d with mentalHealthAndWellnessServices := some value }
  | .careerServicesAndInternshipOpportunities =>
      { d with careerServicesAndInternshipOpportunities := some value }
  | _ => d

/-- A present rating value passes its schema checks: `min(1)` and `max(5)`. -/
def RatingOk (v : Option ℚ) : Prop :=
  ∀ q ∈ v, 1 ≤ q ∧ q ≤ 5

instance (v : Option ℚ) : Decidable (RatingOk v) := by
  unfold RatingOk; infer_instance

/-- All ten rating fields of a draft pass their schema checks. -/
def ratingsOk (d : Draft) : Prop :=
  RatingOk d.qualityOfTeaching ∧ RatingOk d.safety ∧ RatingOk d.location ∧
  RatingOk d.socialEvents ∧ RatingOk d.facilities ∧ RatingOk d.courseContent ∧
  RatingOk d.housingAndAccommodation ∧ RatingOk d.internationalFocus ∧
  RatingOk d.mentalHealthAndWellnessServices ∧
  RatingOk d.careerServicesAndInternshipOpportunities

instance (d : Draft) : Decidable (ratingsOk d) := by
  unfold ratingsOk; infer_instance

/-- The validity predicate exactly as the spec's claim words it (for the
refinement comparison): every present rating an *integer* in `[1, 5]`,
besides the non-empty requirements.  On the inferred draft type
`currentStudent` is always a boolean, so that clause of the claim is
identically satisfied and does not appear. -/
def claimedRatingOkInt (v : Option ℚ) : Prop :=
  ∀ q ∈ v, q.den = 1 ∧ 1 ≤ q ∧ q ≤ 5

instance (v : Option ℚ) : Decidable (claimedRatingOkInt v) := by
  unfold claimedRatingOkInt; infer_instance

/-- The claim's acceptance condition, spec-worded: non-empty `schoolName`
and `nationality`, and every present rating an integer in `[1, 5]`. -/
def claimedValid (d : Draft) : Prop :=
  d.schoolName ≠ "" ∧ d.nationality ≠ "" ∧
  claimedRatingOkInt d.qualityOfTeaching ∧ claimedRatingOkInt d.safety ∧
  claimedRatingOkInt d.location ∧ claimedRatingOkInt d.socialEvents ∧
  claimedRatingOkInt d.facilities ∧ claimedRatingOkInt d.courseContent ∧
  claimedRatingOkInt d.housingAndAccommodation ∧
  claimedRatingOkInt d.internationalFocus ∧
  claimedRatingOkInt d.mentalHealthAndWellnessServices ∧
  claimedRatingOkInt d.careerServicesAndInternshipOpportunities

instance (d : Draft) : Decidable (claimedValid d) := by
  unfold claimedValid; infer_instance

/-- The issues of `schema.parse` that concern one given field. -/
def issuesFor (d : Draft) (f : SchemaField) : List (SchemaField × String) :=
  match f with
  | .schoolName => nonemptyIssues .schoolName "School name is required" d.schoolName
  | .nationality => nonemptyIssues .nationality "Nationality is required" d.nationality
  | .qualityOfTeaching => ratingIssues .qualityOfTeaching d.qualityOfTeaching
  | .safety => ratingIssues .safety d.safety
  | .location => ratingIssues .location d.location
  | .socialEvents => ratingIssues .socialEvents d.socialEvents
  | .facilities => ratingIssues .facilities d.facilities
  | .courseContent => ratingIssues .courseContent d.courseContent
  | .housingAndAccommodation =>
      ratingIssues .housingAndAccommodation d.housingAndAccommodation
  | .internationalFocus => ratingIssues .internationalFocus d.internationalFocus
  | .mentalHealthAndWellnessServices =>
      ratingIssues .mentalHealthAndWellnessServices d.mentalHealthAndWellnessServices
  | .careerServicesAndInternshipOpportunities =>
      ratingIssues .careerServicesAndInternshipOpportunities
        d.careerServicesAndInternshipOpportunities
  | _ => []

/-- The initial `state` of the form (Form.vue lines 31–50): empty strings,
`currentStudent` false, all ratings `undefined`. -/
def initialState : Draft where
  uniqueId := some ""
  schoolName := ""
  sex := some .unset
  nationality := ""
  currentStudent := false
  yearOfStudy := some ""
  nameOfStudy := some ""
  qualityOfTeaching := none
  safety := none
  location := none
  socialEvents := none
  facilities := none
  courseContent := none
  housingAndAccommodation := none
  internationalFocus := none
  mentalHealthAndWellnessServices := none
  careerServicesAndInternshipOpportunities := none
  additionalComments := some ""

/-- A draft that passes validation: the two required strings are filled in
(spec Scenario A). -/
def validDraftA : Draft :=
  { initialState with schoolName := "Acme University", nationality := "Dutch" }

/-- A draft with a present non-integer rating inside `[1, 5]`. -/
def halfRatingDraft : Draft :=
  { validDraftA with qualityOfTeaching := some (5 / 2) }

/-- An error map left over by an earlier failed attempt: one entry for
`schoolName`. -/
def staleErrors : ErrorMap :=
  Function.update emptyErrorMap .schoolName (some "School name is required")

/-- A current student who left both conditional fields empty. -/
def studentDraft : Draft :=
  { validDraftA with
      currentStudent := true
      yearOfStudy := some ""
      nameOfStudy := some "" }

/-- A draft whose required strings are a single space each. -/
def whitespaceDraft : Draft :=
  { initialState with schoolName := " ", nationality := " " }

/-- Assigning `uniqueId` does not change the issue list: the `uniqueId` key
is an optional string and never fails on a string value. -/
theorem validate_set_uniqueId (d : Draft) (x : Option String) :
    validate { d with uniqueId := x } = validate d := rfl

/-- A string has length 0 exactly when it is the empty string. -/
theorem string_length_eq_zero_iff (s : String) : s.length = 0 ↔ s = "" := by
  rw [← String.length_data, List.length_eq_zero, String.ext_iff]

/-- A `.nonempty(msg)` key yields no issue exactly when the string is
non-empty. -/
theorem nonemptyIssues_eq_nil_iff (f : SchemaField) (msg s : String) :
    nonemptyIssues f msg s = [] ↔ s ≠ "" := by
  unfold nonemptyIssues
  split_ifs with h
  · simp [(string_length_eq_zero_iff s).mp h]
  · constructor
    · intro _ hs
      exact h ((string_length_eq_zero_iff s).mpr hs)
    · intro _
      rfl

/-- `RatingOk` on a present value is the range condition. -/
theorem ratingOk_some_iff (q : ℚ) : RatingOk (some q) ↔ 1 ≤ q ∧ q ≤ 5 := by
  simp [RatingOk]

/-- A rating key yields no issue exactly when any present value lies in
`[1, 5]`. -/
theorem ratingIssues_eq_nil_iff (f : SchemaField) (v : Option ℚ) :
    ratingIssues f v = [] ↔ RatingOk v := by
  cases v with
  | none => simp [ratingIssues, RatingOk]
  | some q =>
    rw [ratingOk_some_iff]
    simp only [ratingIssues]
    by_cases hlt : q < 1
    · rw [if_pos hlt]
      simp [not_le.mpr hlt]
    · rw [if_neg hlt, List.nil_append]
      by_cases hgt : q > 5
      · rw [if_pos hgt]
        simp [not_le.mpr hgt]
      · rw [if_neg hgt]
        simp [not_lt.mp hlt, not_lt.mp hgt]

/-- `schema.parse` succeeds exactly when `schoolName` and `nationality` are
non-empty and every present rating lies in `[1, 5]`. -/
theorem validate_eq_nil_iff (d : Draft) :
    validate d = [] ↔
      d.schoolName ≠ "" ∧ d.nationality ≠ "" ∧ ratingsOk d := by
  simp only [validate, List.append_eq_nil, nonemptyIssues_eq_nil_iff,
    ratingIssues_eq_nil_iff, ratingsOk, and_assoc]

/-- One fold step of the error-map `reduce`: the entry for the key of the
appended issue is overwritten. -/
theorem buildErrorMap_append_singleton (l : List (SchemaField × String))
    (i : SchemaField × String) :
    buildErrorMap (l ++ [i]) = Function.update (buildErrorMap l) i.1 (some i.2) := by
  simp [buildErrorMap, List.foldl_append]

/-- Applying the built error map at a field: the fold writes later issues
over earlier ones, so the entry at `f` is the last issue whose path is `f`. -/
theorem buildErrorMap_apply (issues : List (SchemaField × String)) (f : SchemaField) :
    buildErrorMap issues f
      = (issues.reverse.find? (fun i => decide (i.1 = f))).map Prod.snd := by
  induction issues using List.reverseRecOn with
  | nil => rfl
  | append_singleton l i ih =>
    rw [buildErrorMap_append_singleton, List.reverse_append,
      List.reverse_singleton, List.singleton_append]
    by_cases h : i.1 = f
    · rw [List.find?_cons_of_pos _ (by simp [h])]
      simp [Function.update_apply, h]
    · rw [List.find?_cons_of_neg _ (by simp [h]), ← ih,
        Function.update_apply, if_neg (fun hf => h hf.symm)]

/-- An issue present in the list leaves an entry in the built map at its
field. -/
theorem buildErrorMap_ne_none_of_mem (issues : List (SchemaField × String))
    (f : SchemaField) (m : String) (h : (f, m) ∈ issues) :
    buildErrorMap issues f ≠ none := by
  intro hnone
  rw [buildErrorMap_apply, Option.map_eq_none', List.find?_eq_none] at hnone
  exact absurd (hnone (f, m) (List.mem_reverse.mpr h)) (by simp)

/-- A rating key contributes either no issue or a single issue keyed by its
own field: the `min` and `max` messages cannot both fire, because a value
below 1 is not above 5. -/
theorem ratingIssues_shape (g : SchemaField) (v : Option ℚ) :
    ratingIssues g v = [] ∨ ∃ m, ratingIssues g v = [(g, m)] := by
  cases v with
  | none => exact Or.inl rfl
  | some q =>
    simp only [ratingIssues]
    by_cases hlt : q < 1
    · refine Or.inr ⟨"Number must be greater than or equal to 1", ?_⟩
      rw [if_pos hlt,
        if_neg (not_lt.mpr (le_of_lt (lt_of_lt_of_le hlt (by norm_num)))),
        List.append_nil]
    · rw [if_neg hlt, List.nil_append]
      by_cases hgt : q > 5
      · exact Or.inr ⟨_, by rw [if_pos hgt]⟩
      · exact Or.inl (by rw [if_neg hgt])

/-- A `.nonempty` key contributes either no issue or a single issue keyed by
its own field. -/
theorem nonemptyIssues_shape (g : SchemaField) (msg s : String) :
    nonemptyIssues g msg s = [] ∨ nonemptyIssues g msg s = [(g, msg)] := by
  unfold nonemptyIssues
  split_ifs
  · exact Or.inr rfl
  · exact Or.inl rfl

/-- Filtering a `.nonempty` key's issues by field keeps them exactly when
the field is this key's own. -/
theorem filter_nonemptyIssues (g : SchemaField) (msg s : String) (f : SchemaField) :
    (nonemptyIssues g msg s).filter (fun i => decide (i.1 = f))
      = if g = f then nonemptyIssues g msg s else [] := by
  rcases nonemptyIssues_shape g msg s with h | h <;>
    rw [h] <;> by_cases hgf : g = f <;> simp [hgf]

/-- Filtering a rating key's issues by field keeps them exactly when the
field is this key's own. -/
theorem filter_ratingIssues (g : SchemaField) (v : Option ℚ) (f : SchemaField) :
    (ratingIssues g v).filter (fun i => decide (i.1 = f))
      = if g = f then ratingIssues g v else [] := by
  rcases ratingIssues_shape g v with h | ⟨m, h⟩ <;>
    rw [h] <;> by_cases hgf : g = f <;> simp [hgf]

/-- The issue list restricted to one field is exactly that field's own
contribution: distinct schema keys never share a path. -/
theorem validate_filter_eq (d : Draft) (f : SchemaField) :
    (validate d).filter (fun i => decide (i.1 = f)) = issuesFor d f := by
  cases f <;>
    simp [validate, issuesFor, List.filter_append, filter_nonemptyIssues,
      filter_ratingIssues]

/-- No field ever carries more than one issue in one parse of this schema. -/
theorem issuesFor_length_le (d : Draft) (f : SchemaField) :
    (issuesFor d f).length ≤ 1 := by
  have hn : ∀ g msg s, (nonemptyIssues g msg s).length ≤ 1 := by
    intro g msg s
    rcases nonemptyIssues_shape g msg s with h | h <;> simp [h]
  have hr : ∀ g v, (ratingIssues g v).length ≤ 1 := by
    intro g v
    rcases ratingIssues_shape g v with h | ⟨m, h⟩ <;> simp [h]
  cases f <;> simp only [issuesFor] <;>
    first
      | exact Nat.zero_le 1
      | apply hn
      | apply hr

/-- A list of length at most one reads the same from either end. -/
theorem getLast?_eq_head?_of_length_le_one {α : Type} (l : List α)
    (h : l.length ≤ 1) : l.getLast? = l.head? := by
  match l with
  | [] => rfl
  | [a] => rfl
  | a :: b :: t => simp at h

/-- The error map built from a parse failure, read at a field: the entry is
the message of the first (and in fact only) issue for that field. -/
theorem buildErrorMap_validate_apply (d : Draft) (f : SchemaField) :
    buildErrorMap (validate d) f
      = ((validate d).filter (fun i => decide (i.1 = f))).head?.map Prod.snd := by
  rw [buildErrorMap_apply, ← List.filter_getLast?,
    getLast?_eq_head?_of_length_le_one _
      (by rw [validate_filter_eq]; exact issuesFor_length_le d f)]

/-- On a draft that parses, `onSubmit` takes the success branch: the fresh
token is in the draft, the error map is left as it was, and the record is
emitted. -/
theorem submit_eq_of_valid (prev : ErrorMap) (d : Draft) (t : String)
    (h : validate d = []) :
    submit prev d t
      = { draft := { d with uniqueId := some t }, errors := prev,
          emitted := some { d with uniqueId := some t } } := by
  simp [submit, validate_set_uniqueId, h]

/-- On a draft that fails to parse, `onSubmit` takes the `catch` branch: the
fresh token is in the draft, the error map is rebuilt from the issue list,
and nothing is emitted. -/
theorem submit_eq_of_invalid (prev : ErrorMap) (d : Draft) (t : String)
    (h : validate d ≠ []) :
    submit prev d t
      = { draft := { d with uniqueId := some t },
          errors := buildErrorMap (validate d), emitted := none } := by
  simp [submit, validate_set_uniqueId, h]

/-- Whatever branch runs, `onSubmit` has already written the fresh token
into the draft's `uniqueId`. -/
theorem submit_draft_uniqueId (prev : ErrorMap) (d : Draft) (t : String) :
    (submit prev d t).draft.uniqueId = some t := by
  by_cases h : validate d = []
  · rw [submit_eq_of_valid prev d t h]
  · rw [submit_eq_of_invalid prev d t h]

/-- An emitted record is the draft with the fresh token assigned. -/
theorem submit_emitted_eq (prev : ErrorMap) (d : Draft) (t : String) (r : Draft)
    (h : (submit prev d t).emitted = some r) :
    r = { d with uniqueId := some t } := by
  by_cases hv : validate d = []
  · rw [submit_eq_of_valid prev d t hv] at h
    exact (Option.some_inj.mp h).symm
  · rw [submit_eq_of_invalid prev d t hv] at h
    cases h

/-- The draft with one non-integer rating in range parses successfully. -/
theorem validate_halfRatingDraft : validate halfRatingDraft = [] := by
  rw [validate_eq_nil_iff]
  refine ⟨by decide, by decide, ?_, by decide, by decide, by decide, by decide,
    by decide, by decide, by decide, by decide, by decide⟩
  rw [halfRatingDraft]
  simp only [ratingOk_some_iff]
  norm_num

/-- C1, counterexample: a draft whose `qualityOfTeaching` is the non-integer
2.5 is accepted by `schema.parse` and emitted, although the claim's
condition — every present rating an integer in `[1, 5]` — does not hold of
it, so the claimed equivalence fails on this input. -/
theorem c1_counterexample :
    (submit emptyErrorMap halfRatingDraft "tok-c1").emitted.isSome = true ∧
    ¬ claimedValid halfRatingDraft := by
  constructor
  · rw [submit_eq_of_valid emptyErrorMap halfRatingDraft "tok-c1"
      validate_halfRatingDraft]
    rfl
  · rintro ⟨-, -, hq, -⟩
    have h52 : ((5 : ℚ) / 2) ∈ halfRatingDraft.qualityOfTeaching := rfl
    have hden := (hq _ h52).1
    norm_num at hden

/-- C1 (amended): full-schema validation accepts a draft iff `schoolName`
and `nationality` are non-empty and every present rating is a number
(not necessarily an integer) in `[1, 5]`; and the error map built from the
parse has an entry at a field exactly when that field's predicate failed. -/
theorem c1_amended_validation_iff (d : Draft) :
    (validate d = [] ↔ d.schoolName ≠ "" ∧ d.nationality ≠ "" ∧ ratingsOk d) ∧
    (∀ f : SchemaField, buildErrorMap (validate d) f = none ↔ issuesFor d f = []) := by
  refine ⟨validate_eq_nil_iff d, ?_⟩
  intro f
  rw [buildErrorMap_validate_apply, validate_filter_eq]
  cases issuesFor d f <;> simp

/-- C2: a submit on a draft that fails validation emits nothing, and the
resulting draft differs from the incoming one only in `uniqueId`. -/
theorem c2_failed_submit_no_emit_no_mutation (prev : ErrorMap) (d : Draft)
    (t : String) (h : validate d ≠ []) :
    (submit prev d t).emitted = none ∧
    (submit prev d t).draft = { d with uniqueId := some t } := by
  rw [submit_eq_of_invalid prev d t h]
  exact ⟨rfl, rfl⟩

/-- C2 witness: the empty initial draft fails validation; submitting it
emits nothing and only `uniqueId` changes. -/
theorem c2_witness :
    validate initialState ≠ [] ∧
    ((submit emptyErrorMap initialState "tok-w2").emitted = none ∧
      (submit emptyErrorMap initialState "tok-w2").draft
        = { initialState with uniqueId := some "tok-w2" }) :=
  ⟨by decide,
    c2_failed_submit_no_emit_no_mutation emptyErrorMap initialState "tok-w2"
      (by decide)⟩

/-- C3, counterexample: submitting a valid draft while the error map still
holds an entry from an earlier failed attempt succeeds, yet the stale entry
is still there afterwards — the code never clears the map on success. -/
theorem c3_counterexample :
    (submit staleErrors validDraftA "tok-c3").emitted.isSome = true ∧
    (submit staleErrors validDraftA "tok-c3").errors .schoolName
      = some "School name is required" := by
  constructor <;> decide

/-- C3 (amended): a successful submit leaves the error map exactly as it was
before the call; it is empty afterwards only when it was empty before. -/
theorem c3_amended_success_keeps_errors (prev : ErrorMap) (d : Draft)
    (t : String) (h : validate d = []) :
    (submit prev d t).errors = prev := by
  rw [submit_eq_of_valid prev d t h]

/-- C3 witness: a concrete successful submit keeps the incoming map. -/
theorem c3_witness :
    validate validDraftA = [] ∧
    (submit staleErrors validDraftA "tok-w3").errors = staleErrors :=
  ⟨by decide, c3_amended_success_keeps_errors staleErrors validDraftA "tok-w3"
    (by decide)⟩

/-- C4: on a failing submit, no field carries more than one issue in the
parse, and the rebuilt map assigns each field the message of its first (and
only) issue — one message per failing field. -/
theorem c4_one_message_per_field (prev : ErrorMap) (d : Draft) (t : String)
    (f : SchemaField) (h : validate d ≠ []) :
    ((validate d).filter (fun i => decide (i.1 = f))).length ≤ 1 ∧
    (submit prev d t).errors f
      = ((validate d).filter (fun i => decide (i.1 = f))).head?.map Prod.snd := by
  refine ⟨?_, ?_⟩
  · rw [validate_filter_eq]
    exact issuesFor_length_le d f
  · rw [submit_eq_of_invalid prev d t h]
    exact buildErrorMap_validate_apply d f

/-- C4 witness: the failing empty draft, read at `schoolName`. -/
theorem c4_witness :
    validate initialState ≠ [] ∧
    (((validate initialState).filter
        (fun i => decide (i.1 = SchemaField.schoolName))).length ≤ 1 ∧
      (submit emptyErrorMap initialState "tok-w4").errors .schoolName
        = ((validate initialState).filter
            (fun i => decide (i.1 = SchemaField.schoolName))).head?.map Prod.snd) :=
  ⟨by decide,
    c4_one_message_per_field emptyErrorMap initialState "tok-w4" .schoolName
      (by decide)⟩

/-- C5: every submit writes the fresh token into the draft's `uniqueId`; a
successful submit emits that token, so two successful submissions whose
generated tokens are distinct and non-empty emit records with distinct,
non-empty identifiers. -/
theorem c5_fresh_distinct_ids (prev1 prev2 : ErrorMap) (d1 d2 : Draft)
    (t1 t2 : String) (r1 r2 : Draft)
    (ht1 : t1 ≠ "") (ht2 : t2 ≠ "") (hne : t1 ≠ t2)
    (h1 : (submit prev1 d1 t1).emitted = some r1)
    (h2 : (submit prev2 d2 t2).emitted = some r2) :
    (submit prev1 d1 t1).draft.uniqueId = some t1 ∧
    (submit prev2 d2 t2).draft.uniqueId = some t2 ∧
    r1.uniqueId = some t1 ∧ r2.uniqueId = some t2 ∧
    r1.uniqueId ≠ r2.uniqueId ∧
    r1.uniqueId ≠ some "" ∧ r2.uniqueId ≠ some "" := by
  have e1 := submit_emitted_eq prev1 d1 t1 r1 h1
  have e2 := submit_emitted_eq prev2 d2 t2 r2 h2
  subst e1
  subst e2
  refine ⟨submit_draft_uniqueId prev1 d1 t1, submit_draft_uniqueId prev2 d2 t2,
    rfl, rfl, ?_, ?_, ?_⟩
  · simp [hne]
  · simp [ht1]
  · simp [ht2]

/-- C5 witness: two concrete successful submissions with distinct tokens. -/
theorem c5_witness :
    ("id-a" : String) ≠ "" ∧ ("id-b" : String) ≠ "" ∧
    ("id-a" : String) ≠ "id-b" ∧
    (submit emptyErrorMap validDraftA "id-a").emitted
      = some { validDraftA with uniqueId := some "id-a" } ∧
    (submit emptyErrorMap validDraftA "id-b").emitted
      = some { validDraftA with uniqueId := some "id-b" } ∧
    ((submit emptyErrorMap validDraftA "id-a").draft.uniqueId = some "id-a" ∧
      (submit emptyErrorMap validDraftA "id-b").draft.uniqueId = some "id-b" ∧
      ({ validDraftA with uniqueId := some "id-a" } : Draft).uniqueId = some "id-a" ∧
      ({ validDraftA with uniqueId := some "id-b" } : Draft).uniqueId = some "id-b" ∧
      ({ validDraftA with uniqueId := some "id-a" } : Draft).uniqueId
        ≠ ({ validDraftA with uniqueId := some "id-b" } : Draft).uniqueId ∧
      ({ validDraftA with uniqueId := some "id-a" } : Draft).uniqueId ≠ some "" ∧
      ({ validDraftA with uniqueId := some "id-b" } : Draft).uniqueId ≠ some "") :=
  ⟨by decide, by decide, by decide, by decide, by decide,
    c5_fresh_distinct_ids emptyErrorMap emptyErrorMap validDraftA validDraftA
      "id-a" "id-b" { validDraftA with uniqueId := some "id-a" }
      { validDraftA with uniqueId := some "id-b" }
      (by decide) (by decide) (by decide) (by decide) (by decide)⟩

/-- C6: validation is not short-circuited: every issue in the parse leaves
an entry in the rebuilt error map at its field, and nothing is emitted. -/
theorem c6_all_errors_surfaced (prev : ErrorMap) (d : Draft) (t : String)
    (f : SchemaField) (m : String) (h : (f, m) ∈ validate d) :
    (submit prev d t).emitted = none ∧ (submit prev d t).errors f ≠ none := by
  have hne : validate d ≠ [] := by
    intro h0
    rw [h0] at h
    cases h
  rw [submit_eq_of_invalid prev d t hne]
  exact ⟨rfl, buildErrorMap_ne_none_of_mem (validate d) f m h⟩

/-- C6 witness: with both `schoolName` and `nationality` empty, the map gets
an entry for each of the two fields. -/
theorem c6_witness :
    ((SchemaField.schoolName, "School name is required") ∈ validate initialState ∧
      (submit emptyErrorMap initialState "tok-w6").emitted = none ∧
      (submit emptyErrorMap initialState "tok-w6").errors .schoolName ≠ none) ∧
    ((SchemaField.nationality, "Nationality is required") ∈ validate initialState ∧
      (submit emptyErrorMap initialState "tok-w6").emitted = none ∧
      (submit emptyErrorMap initialState "tok-w6").errors .nationality ≠ none) :=
  ⟨⟨by decide,
      c6_all_errors_surfaced emptyErrorMap initialState "tok-w6" .schoolName
        "School name is required" (by decide)⟩,
    ⟨by decide,
      c6_all_errors_surfaced emptyErrorMap initialState "tok-w6" .nationality
        "Nationality is required" (by decide)⟩⟩

/-- C7 (code defect): when the identifier generator throws, the `catch`
block catches the exception, the `instanceof z.ZodError` test fails and the
handler body is skipped, so `onSubmit` returns normally — draft and error
map untouched, no event — instead of letting the fault propagate to the
caller as the specification requires. -/
theorem c7_generator_fault_swallowed :
    submitFallible staleErrors initialState .fault
      = { draft := initialState, errors := staleErrors, emitted := none } := rfl

/-- C8: `yearOfStudy` and `nameOfStudy` are never required: a current
student's draft with both conditional fields empty and the rest valid parses
and is emitted. -/
theorem c8_conditional_fields_not_required (prev : ErrorMap) (d : Draft)
    (t : String) (hcs : d.currentStudent = true)
    (hy : d.yearOfStudy = some "") (hnm : d.nameOfStudy = some "")
    (hs : d.schoolName ≠ "") (hn : d.nationality ≠ "") (hr : ratingsOk d) :
    (submit prev d t).emitted = some { d with uniqueId := some t } := by
  rw [submit_eq_of_valid prev d t ((validate_eq_nil_iff d).mpr ⟨hs, hn, hr⟩)]

/-- C8 witness: a concrete current-student draft with empty conditional
fields is emitted. -/
theorem c8_witness :
    studentDraft.currentStudent = true ∧ studentDraft.yearOfStudy = some "" ∧
    studentDraft.nameOfStudy = some "" ∧ studentDraft.schoolName ≠ "" ∧
    studentDraft.nationality ≠ "" ∧ ratingsOk studentDraft ∧
    (submit emptyErrorMap studentDraft "tok-w8").emitted
      = some { studentDraft with uniqueId := some "tok-w8" } :=
  ⟨by decide, by decide, by decide, by decide, by decide, by decide,
    c8_conditional_fields_not_required emptyErrorMap studentDraft "tok-w8"
      (by decide) (by decide) (by decide) (by decide) (by decide) (by decide)⟩

/-- C9: `schoolNames` returns one name per record of the dataset, in source
order: the result has the dataset's length and its i-th element is the i-th
record's institution name. -/
theorem c9_school_names_projection (schools : List School) :
    (schoolNames schools).length = schools.length ∧
    ∀ i : ℕ,
      (schoolNames schools)[i]? = (schools[i]?).map School.INSTELLINGSNAAM := by
  refine ⟨by simp [schoolNames], ?_⟩
  intro i
  simp [schoolNames]

/-- C10: the required-string checks test only that the length is positive:
a draft whose `schoolName` and `nationality` are non-empty but all
whitespace, and which is otherwise valid, is accepted and emitted. -/
theorem c10_whitespace_only_accepted (prev : ErrorMap) (d : Draft) (t : String)
    (hs0 : d.schoolName ≠ "") (hsw : d.schoolName.data.all Char.isWhitespace = true)
    (hn0 : d.nationality ≠ "") (hnw : d.nationality.data.all Char.isWhitespace = true)
    (hr : ratingsOk d) :
    (submit prev d t).emitted = some { d with uniqueId := some t } := by
  rw [submit_eq_of_valid prev d t ((validate_eq_nil_iff d).mpr ⟨hs0, hn0, hr⟩)]

/-- C10 witness: single-space `schoolName` and `nationality` are accepted. -/
theorem c10_witness :
    whitespaceDraft.schoolName ≠ "" ∧
    whitespaceDraft.schoolName.data.all Char.isWhitespace = true ∧
    whitespaceDraft.nationality ≠ "" ∧
    whitespaceDraft.nationality.data.all Char.isWhitespace = true ∧
    ratingsOk whitespaceDraft ∧
    (submit emptyErrorMap whitespaceDraft "tok-w10").emitted
      = some { whitespaceDraft with uniqueId := some "tok-w10" } :=
  ⟨by decide, by decide, by decide, by decide, by decide,
    c10_whitespace_only_accepted emptyErrorMap whitespaceDraft "tok-w10"
      (by decide) (by decide) (by decide) (by decide) (by decide)⟩

end RateMySchool
